import Mathlib

/-!
Shallow embedding of the build-and-deploy orchestration pipeline implemented
in `Devopsagent.py` (class `DevOpsAgent`), together with theorems settling
the specification claims about it.

External effects (filesystem writes, the generation-service call, the
container engine) are modelled by explicit state passing: the environment
a run observes is a record of the outcomes the external world would
produce, and the pipeline is a pure function of that record.
-/

namespace DevOpsAgent

/-- A decoded chunk of the build engine's event stream (`decode=True` in the
source): a progress line under the `stream` key, an error message under the
`error` key, or any other payload shape. -/
inductive BuildEvent where
  | stream (s : String)
  | error (msg : String)
  | other (raw : String)
deriving DecidableEq

def BuildEvent.isError : BuildEvent → Bool
  | .error _ => true
  | _ => false

def BuildEvent.isStream : BuildEvent → Bool
  | .stream _ => true
  | _ => false

/-- Models the `for chunk in build_generator` loop of `deploy_container`
(lines 156-165): a `stream` chunk sets `build_success`, an `error` chunk
raises `Build Error: ...` (returned as the second component), any other
chunk is printed and ignored.  The first component is the final value of
the `build_success` flag when the loop ends without an error. -/
def consumeBuild : List BuildEvent → Bool → Bool × Option String
  | [], bs => (bs, none)
  | .stream _ :: rest, _ => consumeBuild rest true
  | .error msg :: _, bs => (bs, some msg)
  | .other _ :: rest, bs => consumeBuild rest bs

/-- The fixed allow-list of environment variable names forwarded to the new
container (`env_vars` literal, lines 190-197 of the source). -/
def envAllowList : List String :=
  ["TAVILY_API_KEY", "OPENAI_API_KEY", "AZURE_API_KEY",
   "AZURE_ENDPOINT", "AZURE_OPENAI_API_VERSION", "AZURE_DEPLOYMENT"]

/-- The environment dict actually passed to `containers.run`: each
allow-listed name looked up with `os.getenv`, then `None` values filtered
out (`env_vars = {k: v for k, v in env_vars.items() if v is not None}`). -/
def containerEnv (hostEnv : String → Option String) : List (String × String) :=
  envAllowList.filterMap fun k => (hostEnv k).map fun v => (k, v)

/-- The outcomes the container engine would produce during one
`deploy_container` call: the build event stream, whether the image lookup
after the stream succeeds (`client.images.get`), the text of the lookup
error when it does not, whether an old container with the project identity
exists, whether the best-effort cleanup of it raises, the host process
environment, and the outcome of `containers.run` (new container id, or the
text of the exception it raises). -/
structure DockerEnv where
  events : List BuildEvent
  imageExists : Bool
  imageLookupErr : String
  oldContainerExists : Bool
  cleanupErr : Option String
  hostEnv : String → Option String
  runOutcome : Except String String

/-- Everything observable about one `deploy_container` call: the returned
status string, whether the no-stream warning was printed, whether the
image-existence lookup was reached, whether the old container was removed,
the environment dict passed to `containers.run` when a launch was
attempted (`none` = launch never attempted), and the id of the launched
container on success. -/
structure DeployOut where
  status : String
  warnedNoStream : Bool
  imageChecked : Bool
  oldRemoved : Bool
  launchEnv : Option (List (String × String))
  launchedId : Option String

/-- `DevOpsAgent.deploy_container` (lines 135-213).  An `error` chunk
raises inside the inner `try`, is re-raised as `Docker Build Failed: ...`,
and the outer handler turns it into the returned failure string; the image
lookup happens only when the stream ends without an error chunk; cleanup
errors are swallowed by `except: pass`; the success return is the literal
string of line 209. -/
def deploy_container (d : DockerEnv) : DeployOut :=
  match consumeBuild d.events false with
  | (_, some msg) =>
      { status := "❌ Deployment Failed: Docker Build Failed: Build Error: " ++ msg
        warnedNoStream := false
        imageChecked := false
        oldRemoved := false
        launchEnv := none
        launchedId := none }
  | (buildSuccess, none) =>
      let warned := !buildSuccess
      if d.imageExists then
        let removed := d.oldContainerExists && d.cleanupErr.isNone
        match d.runOutcome with
        | .error msg =>
            { status := "❌ Deployment Failed: " ++ msg
              warnedNoStream := warned
              imageChecked := true
              oldRemoved := removed
              launchEnv := some (containerEnv d.hostEnv)
              launchedId := none }
        | .ok cid =>
            { status := "✅ Deployed! Access at: http://localhost:${host_port}"
              warnedNoStream := warned
              imageChecked := true
              oldRemoved := removed
              launchEnv := some (containerEnv d.hostEnv)
              launchedId := some cid }
      else
        { status := "❌ Deployment Failed: Docker Build Failed: " ++ d.imageLookupErr
          warnedNoStream := warned
          imageChecked := true
          oldRemoved := false
          launchEnv := none
          launchedId := none }

/-- The `critical_files` list of `_get_project_context` (line 40). -/
def critical_files : List String :=
  ["requirements.txt", "package.json", "app.py", "main.py"]

/-- One file met during `os.walk`: its base name and the outcome of
opening and decoding it (`.error` = the `open` call raises; decoded lines
otherwise — the UTF-8 / Latin-1 fallback yields the same line sequence,
each line with its trailing newline, as Python line iteration does). -/
structure WalkFile where
  name : String
  content : Except String (List String)

/-- Models the list comprehension `[next(f) for _ in range(50)]`
(lines 50 and 53): `next` is called exactly `n` times and raises
`StopIteration` as soon as the file is exhausted; the comprehension does
not catch `StopIteration`, so a file with fewer than `n` lines makes the
whole read raise. -/
def takeNext : Nat → List String → Except String (List String)
  | 0, _ => .ok []
  | _ + 1, [] => .error "StopIteration"
  | n + 1, l :: ls => (takeNext n ls).map (l :: ·)

/-- The per-file body of `_get_project_context`'s loop (lines 44-57): a
file not in `critical_files` is ignored; otherwise the open/decode and the
50-`next` read run under `try ... except Exception`, so any failure —
including the `StopIteration` from a file shorter than 50 lines — skips
the file with a warning.  Returns the captured excerpt, or `none` when the
file is skipped. -/
def scanFile (wf : WalkFile) : Option (List String) :=
  if wf.name ∈ critical_files then
    match wf.content with
    | .ok lines =>
        match takeNext 50 lines with
        | .ok excerpt => some excerpt
        | .error _ => none
    | .error _ => none
  else none

/-- The (filename, excerpt) pairs that make it into the context bundle, in
walk order. -/
def contextExcerpts (files : List WalkFile) : List (String × List String) :=
  files.filterMap fun wf => (scanFile wf).map fun ex => (wf.name, ex)

/-- `DevOpsAgent._get_project_context` (lines 36-58): the concatenated
context string built from the captured excerpts. -/
def get_project_context (files : List WalkFile) : String :=
  files.foldl
    (fun ctx wf =>
      match scanFile wf with
      | some excerpt =>
          ctx ++ "\n--- FILE: " ++ wf.name ++ " ---\n" ++ String.join excerpt ++ "\n"
      | none => ctx)
    ""

/-- The fixed bootstrap script `ensure_entrypoint` writes to
`docker_entrypoint.py` (lines 64-82 of the source, apostrophes escaped). -/
def entrypointContent : String :=
  "import sys\nimport os\n\ntry:\n    from app import app\n    print(\"Successfully imported \x27app\x27 from app.py\")\nexcept ImportError as e:\n    print(f\"Could not import \x27app\x27: {e}\")\n    print(\"Creating fallback app...\")\n    from flask import Flask\n    app = Flask(__name__)\n    @app.route(\x27/\x27)\n    def home():\n        return \"<h1>Fallback App</h1><p>The container is running, but app.py failed to load.</p>\"\n\nif __name__ == \"__main__\":\n    print(\"Starting Server on 0.0.0.0:5000\")\n    app.run(host=\x270.0.0.0\x27, port=5000)\n"

/-- What the filesystem write of the entrypoint artifact does: writes the
full content, leaves a zero-byte file (the ghost-build mode the size check
is after), or raises with a message. -/
inductive WriteOutcome where
  | ok
  | emptyFile
  | raised (msg : String)
deriving DecidableEq

/-- The two artifacts the pipeline writes inside the project directory. -/
structure FS where
  entrypoint : Option String
  dockerfile : Option String
deriving DecidableEq

/-- What `ensure_entrypoint` printed about the write. -/
inductive EntryLog where
  | createdOk
  | criticalEmpty
  | criticalWriteError (msg : String)
deriving DecidableEq

/-- `DevOpsAgent.ensure_entrypoint` (lines 60-95).  The write and the
size check run under `try ... except Exception`, and both failure paths
only `print` a `[CRITICAL ERROR]` line; the method always returns `None`
to its caller, so the third component — what propagates to `run` — is
`.ok ()` in every case. -/
def ensure_entrypoint (fs : FS) (w : WriteOutcome) : FS × EntryLog × Except String Unit :=
  match w with
  | .ok => ({ fs with entrypoint := some entrypointContent }, .createdOk, .ok ())
  | .emptyFile => ({ fs with entrypoint := some "" }, .criticalEmpty, .ok ())
  | .raised msg => (fs, .criticalWriteError msg, .ok ())

/-- Python `str.replace pat repl` on character lists: a single
left-to-right pass replacing non-overlapping occurrences, never rescanning
the replacement text.  (The `pat ≠ []` guard matches the nonempty patterns
used in the source.) -/
def pyReplace (pat repl : List Char) : List Char → List Char
  | [] => []
  | c :: rest =>
      if h : pat ≠ [] ∧ pat <+: (c :: rest) then
        repl ++ pyReplace pat repl ((c :: rest).drop pat.length)
      else
        c :: pyReplace pat repl rest
termination_by s => s.length
decreasing_by
  · simp only [List.length_drop, List.length_cons]
    have hp : 0 < pat.length := List.length_pos.mpr h.1
    omega
  · simp only [List.length_cons]
    omega

/-- The backtick character. -/
def backtick : Char := Char.ofNat 96

/-- The fence marker `(three backticks)` stripped on line 121. -/
def fence : List Char := [backtick, backtick, backtick]

/-- The longer marker stripped first on line 121: three backticks followed
by `dockerfile`. -/
def fenceDockerfile : List Char := fence ++ "dockerfile".data

/-- Python's default `str.strip` whitespace set, ASCII part. -/
def isPySpace (c : Char) : Bool :=
  c = ' ' || c = '\t' || c = '\n' || c = '\r' || c = Char.ofNat 11 || c = Char.ofNat 12

/-- Python `str.strip()` on character lists. -/
def pyStrip (s : List Char) : List Char :=
  (((s.dropWhile isPySpace).reverse.dropWhile isPySpace)).reverse

/-- The sanitisation of line 121:
`response.content.replace("(fence)dockerfile", "").replace("(fence)", "").strip()`. -/
def sanitizeResponse (s : String) : String :=
  ⟨pyStrip (pyReplace fence [] (pyReplace fenceDockerfile [] s.data))⟩

/-- The string literal `generate_dockerfile` returns on line 127. -/
def dockerfileLoc : String := "Dockerfile (Using docker_entrypoint.py)"

/-- `DevOpsAgent.generate_dockerfile` (lines 97-127), as a state-passing
function: `llm` is the outcome of the single `self.llm.invoke` call (the
response text, or the exception it raises), `dfWriteErr` is an exception
the Dockerfile `open`/`write` would raise (`none` = the write succeeds).
On any raise the exception propagates to `run`; on success the sanitised
text is persisted and the location string returned. -/
def generate_dockerfile (fs : FS) (llm : Except String String)
    (dfWriteErr : Option String) : FS × Except String String :=
  match llm with
  | .error msg => (fs, .error msg)
  | .ok content =>
      match dfWriteErr with
      | some msg => (fs, .error msg)
      | none =>
          ({ fs with dockerfile := some (sanitizeResponse content) }, .ok dockerfileLoc)

/-- The pipeline stages of the specification's coordinator state machine. -/
inductive Stage where
  | writeEntrypoint
  | scanContext
  | writeBuildDefinition
  | buildImage
  | replaceContainer
deriving DecidableEq

/-- Everything the external world decides about one pipeline run. -/
structure AgentEnv where
  entryWrite : WriteOutcome
  files : List WalkFile
  llm : Except String String
  dfWriteErr : Option String
  docker : DockerEnv

/-- Everything observable about one `run` call: the returned list, the
final filesystem state, the stages that began (in order), the entrypoint
log line, and the deployment outcome when the deploy stage ran. -/
structure RunOut where
  result : List String
  fs : FS
  stages : List Stage
  entryLog : EntryLog
  deploy : Option DeployOut

/-- `DevOpsAgent.run` (lines 215-223): calls `ensure_entrypoint`,
`_get_project_context`, `generate_dockerfile`, `deploy_container` in
order under a single `try`; any exception yields `["Error: " ++ msg]`.
`ensure_entrypoint` never raises (it swallows its own failures), so the
scan always begins; `deploy_container` never raises (it returns a failure
string), so once the Dockerfile is written the result is the two-element
list `[f1, status]`. -/
def run (env : AgentEnv) (fs0 : FS) : RunOut :=
  let (fs1, elog, _entryOk) := ensure_entrypoint fs0 env.entryWrite
  let _context := get_project_context env.files
  match generate_dockerfile fs1 env.llm env.dfWriteErr with
  | (fs2, .error msg) =>
      { result := ["Error: " ++ msg]
        fs := fs2
        stages := [.writeEntrypoint, .scanContext, .writeBuildDefinition]
        entryLog := elog
        deploy := none }
  | (fs2, .ok f1) =>
      let dep := deploy_container env.docker
      { result := [f1, dep.status]
        fs := fs2
        stages :=
          [.writeEntrypoint, .scanContext, .writeBuildDefinition, .buildImage]
            ++ (if dep.imageChecked && dep.launchEnv.isSome then [.replaceContainer] else [])
        entryLog := elog
        deploy := some dep }

/-- Length of the leading run of backticks of a character list; used to
reason about what `str.replace` leaves behind. -/
def leadRun : List Char → Nat
  | [] => 0
  | c :: rest => if c = backtick then leadRun rest + 1 else 0

/-! Concrete fixtures used by witnesses and counterexamples. -/

/-- A project directory with neither artifact present yet. -/
def fsEmpty : FS := ⟨none, none⟩

/-- A host process environment with none of the allow-listed variables set. -/
def hostNone : String → Option String := fun _ => none

/-- A host process environment with exactly one allow-listed variable set. -/
def hostOneKey : String → Option String :=
  fun k => if k = "AZURE_API_KEY" then some "secret" else none

/-- A container engine that streams one progress event, has the image
after the build, has no old container, and launches a container with id
`abc123`. -/
def dockerHappy : DockerEnv :=
  { events := [.stream "Step 1/4"]
    imageExists := true
    imageLookupErr := ""
    oldContainerExists := false
    cleanupErr := none
    hostEnv := hostNone
    runOutcome := .ok "abc123" }

/-- A container engine whose build stream is `[progress, progress, error]`
(the simulated stream of the specification's Image Builder test). -/
def dockerBuildError : DockerEnv :=
  { events := [.stream "Step 1/5", .stream "Step 2/5", .error "boom"]
    imageExists := true
    imageLookupErr := "unreachable"
    oldContainerExists := false
    cleanupErr := none
    hostEnv := hostNone
    runOutcome := .ok "cid" }

/-- A container engine whose stream reports progress and no error but
whose image lookup afterwards fails. -/
def dockerMissingImage : DockerEnv :=
  { events := [.stream "Step 1/4"]
    imageExists := false
    imageLookupErr := "404 Client Error: image not found"
    oldContainerExists := false
    cleanupErr := none
    hostEnv := hostNone
    runOutcome := .ok "cid" }

/-- A container engine with an old container present and one allow-listed
host variable set. -/
def dockerOneKey : DockerEnv :=
  { events := [.stream "Step 1/4"]
    imageExists := true
    imageLookupErr := ""
    oldContainerExists := true
    cleanupErr := none
    hostEnv := hostOneKey
    runOutcome := .ok "abc123" }

/-- A run in which the entrypoint write raises and everything downstream
would succeed. -/
def envEntryRaises : AgentEnv :=
  { entryWrite := .raised "No space left on device"
    files := []
    llm := .ok "FROM python:3.9-slim"
    dfWriteErr := none
    docker := dockerHappy }

/-- A run in which the generation service call raises. -/
def envLlmRaises : AgentEnv :=
  { entryWrite := .ok
    files := []
    llm := .error "ConnectionError: generation service unreachable"
    dfWriteErr := none
    docker := dockerHappy }

/-- A run in which the generation service succeeds but the build stream
carries an error event. -/
def envDeployFails : AgentEnv :=
  { entryWrite := .ok
    files := []
    llm := .ok "FROM python:3.9-slim"
    dfWriteErr := none
    docker := dockerBuildError }

/-- The first five lines of a small recognized application module. -/
def fiveLines : List String :=
  ["from flask import Flask\n", "app = Flask(__name__)\n",
   "@app.route(\x27/\x27)\n", "def home():\n", "    return \x27hi\x27\n"]

/-- Sixty identical manifest lines. -/
def sixtyLines : List String := List.replicate 60 "requests==2.31.0\n"


theorem fence_eq : fence = List.replicate 3 backtick := rfl

theorem leadRun_ge_iff (n : Nat) (s : List Char) :
    List.replicate n backtick <+: s ↔ n ≤ leadRun s := by
  induction n generalizing s with
  | zero => simp
  | succ n ih =>
    cases s with
    | nil => simp [List.replicate_succ, leadRun]
    | cons c t =>
      rw [List.replicate_succ, List.cons_prefix_cons]
      by_cases hc : c = backtick
      · subst hc
        simp [leadRun, ih]
      · simp [leadRun, hc, eq_comm]


theorem leadRun_drop (k : Nat) (s : List Char) (h : k ≤ leadRun s) :
    leadRun (s.drop k) = leadRun s - k := by
  induction k generalizing s with
  | zero => simp
  | succ k ih =>
    cases s with
    | nil => simp [leadRun] at h
    | cons c t =>
      by_cases hc : c = backtick
      · subst hc
        simp only [leadRun, if_pos rfl] at h
        rw [List.drop_succ_cons, ih t (by simp [leadRun] at h; omega)]
        simp [leadRun]
      · simp [leadRun, hc] at h

theorem leadRun_pyReplace_aux :
    ∀ n, ∀ s : List Char, s.length ≤ n → leadRun (pyReplace fence [] s) = leadRun s % 3 := by
  intro n
  induction n with
  | zero =>
    intro s hs
    obtain rfl : s = [] := List.length_eq_zero.mp (Nat.le_zero.mp hs)
    simp [pyReplace, leadRun]
  | succ n ih =>
    intro s hs
    cases s with
    | nil => simp [pyReplace, leadRun]
    | cons c rest =>
      rw [pyReplace]
      by_cases h : fence ≠ [] ∧ fence <+: c :: rest
      · rw [dif_pos h]
        have h3 : 3 ≤ leadRun (c :: rest) := (leadRun_ge_iff 3 (c :: rest)).mp (fence_eq ▸ h.2)
        have hdlen : ((c :: rest).drop fence.length).length ≤ n := by
          simp [fence, List.length_drop, List.length_cons] at hs ⊢
          omega
        rw [List.nil_append, ih _ hdlen]
        have hd : (c :: rest).drop fence.length = (c :: rest).drop 3 := rfl
        rw [hd, leadRun_drop 3 (c :: rest) h3]
        omega
      · rw [dif_neg h]
        have hne : fence ≠ [] := by simp [fence]
        have hnp : ¬ fence <+: c :: rest := fun hp => h ⟨hne, hp⟩
        have hlt : leadRun (c :: rest) < 3 := by
          by_contra hge
          exact hnp (fence_eq ▸ (leadRun_ge_iff 3 (c :: rest)).mpr (by omega))
        by_cases hc : c = backtick
        · subst hc
          simp [leadRun] at hlt
          have hR := ih rest (by simp [List.length_cons] at hs; omega)
          simp [leadRun, hR]
          omega
        · simp [leadRun, hc]

theorem leadRun_pyReplace (s : List Char) :
    leadRun (pyReplace fence [] s) = leadRun s % 3 :=
  leadRun_pyReplace_aux s.length s le_rfl

theorem pyReplace_fence_free_aux :
    ∀ n, ∀ s : List Char, s.length ≤ n → ¬ (fence <:+: pyReplace fence [] s) := by
  intro n
  induction n with
  | zero =>
    intro s hs
    obtain rfl : s = [] := List.length_eq_zero.mp (Nat.le_zero.mp hs)
    simp [pyReplace, fence]
  | succ n ih =>
    intro s hs hinf
    cases s with
    | nil =>
      simp [pyReplace, fence] at hinf
    | cons c rest =>
      rw [pyReplace] at hinf
      by_cases h : fence ≠ [] ∧ fence <+: c :: rest
      · rw [dif_pos h, List.nil_append] at hinf
        have hdlen : ((c :: rest).drop fence.length).length ≤ n := by
          simp [fence, List.length_drop, List.length_cons] at hs ⊢
          omega
        exact ih _ hdlen hinf
      · rw [dif_neg h] at hinf
        rcases List.infix_cons_iff.mp hinf with hpre | htail
        · have h3 : 3 ≤ leadRun (c :: pyReplace fence [] rest) :=
            (leadRun_ge_iff 3 _).mp (fence_eq ▸ hpre)
          have hne : fence ≠ [] := by simp [fence]
          have hnp : ¬ fence <+: c :: rest := fun hp => h ⟨hne, hp⟩
          have hlt : leadRun (c :: rest) < 3 := by
            by_contra hge
            exact hnp (fence_eq ▸ (leadRun_ge_iff 3 (c :: rest)).mpr (by omega))
          by_cases hc : c = backtick
          · subst hc
            simp [leadRun] at hlt h3
            rw [leadRun_pyReplace rest] at h3
            omega
          · simp [leadRun, hc] at h3
        · exact ih rest (by simp [List.length_cons] at hs; omega) htail

theorem pyReplace_fence_free (s : List Char) : ¬ (fence <:+: pyReplace fence [] s) :=
  pyReplace_fence_free_aux s.length s le_rfl

theorem pyStrip_infix_self (s : List Char) : pyStrip s <:+: s := by
  have h1 := List.takeWhile_append_dropWhile isPySpace s
  have h2 := List.takeWhile_append_dropWhile isPySpace (s.dropWhile isPySpace).reverse
  have h3 : s.dropWhile isPySpace
      = ((s.dropWhile isPySpace).reverse.dropWhile isPySpace).reverse
        ++ ((s.dropWhile isPySpace).reverse.takeWhile isPySpace).reverse := by
    calc s.dropWhile isPySpace
        = ((s.dropWhile isPySpace).reverse).reverse := (List.reverse_reverse _).symm
      _ = (List.takeWhile isPySpace (s.dropWhile isPySpace).reverse
            ++ List.dropWhile isPySpace (s.dropWhile isPySpace).reverse).reverse := by
          rw [h2]
      _ = _ := by rw [List.reverse_append]
  refine ⟨s.takeWhile isPySpace,
    ((s.dropWhile isPySpace).reverse.takeWhile isPySpace).reverse, ?_⟩
  rw [List.append_assoc]
  simp only [pyStrip]
  rw [← h3, h1]


theorem consumeBuild_append_error (pre rest : List BuildEvent) (m : String)
    (hpre : ∀ x ∈ pre, x.isError = false) :
    ∀ b, (consumeBuild (pre ++ BuildEvent.error m :: rest) b).2 = some m := by
  induction pre with
  | nil => intro b; simp [consumeBuild]
  | cons x xs ih =>
    intro b
    cases x with
    | stream s =>
        simp only [List.cons_append, consumeBuild]
        exact ih (fun y hy => hpre y (List.mem_cons_of_mem _ hy)) true
    | error msg =>
        have := hpre (.error msg) (List.mem_cons_self _ _)
        simp [BuildEvent.isError] at this
    | other raw =>
        simp only [List.cons_append, consumeBuild]
        exact ih (fun y hy => hpre y (List.mem_cons_of_mem _ hy)) b

theorem consumeBuild_no_error (evs : List BuildEvent)
    (h : ∀ x ∈ evs, x.isError = false) :
    ∀ b, consumeBuild evs b = (b || evs.any BuildEvent.isStream, none) := by
  induction evs with
  | nil => intro b; simp [consumeBuild]
  | cons x xs ih =>
    intro b
    cases x with
    | stream s =>
        simp only [consumeBuild, List.any_cons]
        rw [ih (fun y hy => h y (List.mem_cons_of_mem _ hy)) true]
        simp [BuildEvent.isStream]
    | error msg =>
        have := h (.error msg) (List.mem_cons_self _ _)
        simp [BuildEvent.isError] at this
    | other raw =>
        simp only [consumeBuild, List.any_cons]
        rw [ih (fun y hy => h y (List.mem_cons_of_mem _ hy)) b]
        simp [BuildEvent.isStream]

theorem mem_containerEnv (hostEnv : String → Option String) (k v : String) :
    (k, v) ∈ containerEnv hostEnv ↔ k ∈ envAllowList ∧ hostEnv k = some v := by
  simp only [containerEnv, List.mem_filterMap, Option.map_eq_some', Prod.mk.injEq]
  constructor
  · rintro ⟨a, ha, w, hw, rfl, rfl⟩
    exact ⟨ha, hw⟩
  · rintro ⟨hk, hv⟩
    exact ⟨k, hk, v, hv, rfl, rfl⟩


/-- C1: the Context Scanner includes the first 50 lines of a recognized
file with at least 50 lines; but — contrary to claim and spec — a
recognized file with fewer than 50 lines is skipped entirely (its
`StopIteration` is caught by the generic handler and the file contributes
no excerpt), instead of being included truncated to its own length. -/
theorem scan_skips_short_file :
    scanFile ⟨"app.py", .ok fiveLines⟩ = none
    ∧ get_project_context [⟨"app.py", .ok fiveLines⟩] = ""
    ∧ contextExcerpts [⟨"app.py", .ok fiveLines⟩] = []
    ∧ scanFile ⟨"requirements.txt", .ok sixtyLines⟩ = some (sixtyLines.take 50)
    ∧ (sixtyLines.take 50).length = 50 := by
  refine ⟨?_, ?_, ?_, ?_, ?_⟩ <;> decide

/-- C3: on a successful deployment `deploy_container` launches a container
whose id it knows, but the value it returns is the fixed literal of source
line 209: it contains the unexpanded placeholder text for the host port
and does not contain the new container's identity. -/
theorem deploy_success_placeholder :
    (deploy_container dockerHappy).launchedId = some "abc123"
    ∧ (deploy_container dockerHappy).status
        = "✅ Deployed! Access at: http://localhost:${host_port}"
    ∧ "${host_port}".data <:+: (deploy_container dockerHappy).status.data
    ∧ ¬ ("abc123".data <:+: (deploy_container dockerHappy).status.data) := by
  refine ⟨?_, ?_, ?_, ?_⟩ <;> decide


/-- C4: the first error-bearing event of the build stream aborts the build
stage: the returned failure names that event's message, the image lookup
by tag is never reached, and no container launch is attempted. -/
theorem build_error_aborts (d : DockerEnv) (pre rest : List BuildEvent) (m : String)
    (hev : d.events = pre ++ BuildEvent.error m :: rest)
    (hpre : ∀ x ∈ pre, x.isError = false) :
    (deploy_container d).status
        = "❌ Deployment Failed: Docker Build Failed: Build Error: " ++ m
    ∧ (deploy_container d).imageChecked = false
    ∧ (deploy_container d).launchEnv = none := by
  rcases hcb : consumeBuild d.events false with ⟨bs, e⟩
  have he : e = some m := by
    have h2 := consumeBuild_append_error pre rest m hpre false
    rw [← hev, hcb] at h2
    exact h2
  subst he
  simp [deploy_container, hcb]

/-- Witness for C4 at the specification's simulated stream
[progress, progress, error]. -/
theorem build_error_aborts_witness :
    (deploy_container dockerBuildError).status
        = "❌ Deployment Failed: Docker Build Failed: Build Error: " ++ "boom"
    ∧ (deploy_container dockerBuildError).imageChecked = false
    ∧ (deploy_container dockerBuildError).launchEnv = none :=
  build_error_aborts dockerBuildError [.stream "Step 1/5", .stream "Step 2/5"] [] "boom"
    rfl (by decide)

/-- C5: when the build stream ends without an error event, the image is
re-fetched by tag; if it is absent the stage fails with the lookup failure
as its cause (a verification failure distinct from an error-event build
failure) and no launch is attempted; a stream with no progress event only
records the warning — with the image present and the launch succeeding,
the stage still succeeds. -/
theorem build_verification (d : DockerEnv)
    (h : ∀ x ∈ d.events, x.isError = false) :
    (deploy_container d).imageChecked = true
    ∧ (d.imageExists = false →
        (deploy_container d).status
            = "❌ Deployment Failed: Docker Build Failed: " ++ d.imageLookupErr
        ∧ (deploy_container d).launchEnv = none)
    ∧ ((∀ x ∈ d.events, x.isStream = false) →
        (deploy_container d).warnedNoStream = true)
    ∧ (∀ cid, d.imageExists = true → d.runOutcome = .ok cid →
        (deploy_container d).status
            = "✅ Deployed! Access at: http://localhost:${host_port}") := by
  have hcb := consumeBuild_no_error d.events h false
  have hany : (∀ x ∈ d.events, x.isStream = false) → d.events.any BuildEvent.isStream = false := by
    intro hx
    simp [List.any_eq_false]
    exact fun x hm => by simp [hx x hm]
  refine ⟨?_, ?_, ?_, ?_⟩
  · cases him : d.imageExists
    · simp [deploy_container, hcb, him]
    · cases hro : d.runOutcome <;> simp [deploy_container, hcb, him, hro]
  · intro him
    simp [deploy_container, hcb, him]
  · intro hx
    have := hany hx
    cases him : d.imageExists
    · simp [deploy_container, hcb, him, this]
    · cases hro : d.runOutcome <;> simp [deploy_container, hcb, him, hro, this]
  · intro cid him hro
    simp [deploy_container, hcb, him, hro]

/-- Witness for C5 at the specification's scenario: one progress event,
image missing on lookup. -/
theorem build_verification_witness :
    (deploy_container dockerMissingImage).imageChecked = true
    ∧ (deploy_container dockerMissingImage).status
        = "❌ Deployment Failed: Docker Build Failed: "
            ++ "404 Client Error: image not found"
    ∧ (deploy_container dockerMissingImage).launchEnv = none := by
  have h := build_verification dockerMissingImage (by decide)
  exact ⟨h.1, (h.2.1 rfl).1, (h.2.1 rfl).2⟩


/-- C8: whatever text the generation service returns, the persisted build
definition is the sanitised text, and no fence-marker substring (three
consecutive backticks) survives the two `replace` passes and the `strip`. -/
theorem sanitized_dockerfile_fence_free (content : String) (fs : FS) :
    ((generate_dockerfile fs (Except.ok content) none).1).dockerfile
        = some (sanitizeResponse content)
    ∧ ¬ (fence <:+: (sanitizeResponse content).data) := by
  constructor
  · simp [generate_dockerfile]
  · intro hinf
    have h2 := pyStrip_infix_self (pyReplace fence [] (pyReplace fenceDockerfile [] content.data))
    exact pyReplace_fence_free _ (hinf.trans h2)

/-- C9: the environment handed to `containers.run` is exactly the fixed
allow-list restricted to the variables actually set in the host process
environment: whenever a launch is attempted, the passed mapping contains
`(k, v)` precisely when `k` is allow-listed and set to `v` on the host, so
absent variables are omitted rather than forwarded empty. -/
theorem launch_env_allowlist (d : DockerEnv) (envmap : List (String × String))
    (h : (deploy_container d).launchEnv = some envmap) :
    envmap = containerEnv d.hostEnv
    ∧ ∀ k v, ((k, v) ∈ envmap ↔ k ∈ envAllowList ∧ d.hostEnv k = some v) := by
  have henv : envmap = containerEnv d.hostEnv := by
    rcases hcb : consumeBuild d.events false with ⟨bs, e⟩
    unfold deploy_container at h
    rw [hcb] at h
    cases e with
    | some m => simp at h
    | none =>
      cases him : d.imageExists
      · simp [him] at h
      · cases hro : d.runOutcome <;> simp [him, hro] at h <;> exact h.symm
  subst henv
  exact ⟨rfl, fun k v => mem_containerEnv d.hostEnv k v⟩

/-- Witness for C9: with exactly one allow-listed variable set, the
launched container receives exactly that binding. -/
theorem launch_env_allowlist_witness :
    [("AZURE_API_KEY", "secret")] = containerEnv dockerOneKey.hostEnv
    ∧ ∀ k v, (((k, v) ∈ [("AZURE_API_KEY", "secret")])
        ↔ k ∈ envAllowList ∧ dockerOneKey.hostEnv k = some v) :=
  launch_env_allowlist dockerOneKey [("AZURE_API_KEY", "secret")] (by decide)


/-- C2 counterexample: when the entrypoint write raises, `ensure_entrypoint`
returns normally (nothing is signaled to the caller), and the pipeline run
does not fail — it continues through every later stage and returns the
success-shaped two-element result. -/
theorem entrypoint_failure_not_signaled :
    (ensure_entrypoint fsEmpty (.raised "No space left on device")).2.2 = Except.ok ()
    ∧ (run envEntryRaises fsEmpty).entryLog
        = .criticalWriteError "No space left on device"
    ∧ (run envEntryRaises fsEmpty).result
        = [dockerfileLoc, "✅ Deployed! Access at: http://localhost:${host_port}"]
    ∧ Stage.scanContext ∈ (run envEntryRaises fsEmpty).stages := by
  exact ⟨rfl, rfl, rfl, by decide⟩

/-- C2 amended: after the write the artifact size is checked, and the
outcome is logged — success is logged exactly when the full content was
written, an empty file logs one critical line, a raising write logs
another — but the operation never signals a failure to its caller, and the
pipeline proceeds to the context scan in every case. -/
theorem entrypoint_failures_logged_only (fs : FS) (w : WriteOutcome) :
    (ensure_entrypoint fs w).2.2 = Except.ok ()
    ∧ ((ensure_entrypoint fs w).2.1 = .createdOk ↔ w = .ok)
    ∧ (w = .emptyFile → (ensure_entrypoint fs w).2.1 = .criticalEmpty)
    ∧ (∀ m, w = .raised m → (ensure_entrypoint fs w).2.1 = .criticalWriteError m)
    ∧ (∀ env : AgentEnv, ∀ fs0 : FS,
        (run env fs0).stages.take 2 = [Stage.writeEntrypoint, Stage.scanContext]) := by
  refine ⟨?_, ?_, ?_, ?_, ?_⟩
  · cases w <;> rfl
  · cases w <;> simp [ensure_entrypoint]
  · intro hw; subst hw; rfl
  · intro m hw; subst hw; rfl
  · intro env fs0
    unfold run
    rcases hg : generate_dockerfile (ensure_entrypoint fs0 env.entryWrite).1 env.llm env.dfWriteErr
      with ⟨fs2, r⟩
    cases r <;> simp [hg]

/-- Witness for C2 amended at a raising write. -/
theorem entrypoint_failures_logged_only_witness :
    (ensure_entrypoint fsEmpty (.raised "disk full")).2.2 = Except.ok ()
    ∧ (ensure_entrypoint fsEmpty (.raised "disk full")).2.1
        = .criticalWriteError "disk full"
    ∧ (run envEntryRaises fsEmpty).stages.take 2
        = [Stage.writeEntrypoint, Stage.scanContext] :=
  ⟨(entrypoint_failures_logged_only fsEmpty (.raised "disk full")).1,
   (entrypoint_failures_logged_only fsEmpty (.raised "disk full")).2.2.2.1 "disk full" rfl,
   (entrypoint_failures_logged_only fsEmpty (.raised "disk full")).2.2.2.2 envEntryRaises fsEmpty⟩


/-- C6 counterexample: a failing WriteEntrypoint stage (the write raises
and a critical error is logged) does not stop the pipeline: every later
stage still begins and the run ends with the success-shaped result, not a
terminal failure naming the cause. -/
theorem pipeline_continues_after_entry_failure :
    (run envEntryRaises fsEmpty).entryLog
        = .criticalWriteError "No space left on device"
    ∧ (run envEntryRaises fsEmpty).stages
        = [Stage.writeEntrypoint, Stage.scanContext, Stage.writeBuildDefinition,
           Stage.buildImage, Stage.replaceContainer]
    ∧ (run envEntryRaises fsEmpty).result
        = [dockerfileLoc, "✅ Deployed! Access at: http://localhost:${host_port}"] := by
  exact ⟨rfl, by decide, rfl⟩

/-- C6 amended: the stages run in the fixed order with no retries (the
trace is a duplicate-free prefix of the canonical order), a
WriteBuildDefinition failure yields the single terminal failure result
naming the cause and skips all later stages — but a WriteEntrypoint
failure does not stop the run: the scan begins regardless. -/
theorem pipeline_stage_order (env : AgentEnv) (fs0 : FS) :
    (run env fs0).stages.Nodup
    ∧ (run env fs0).stages
        <+: [Stage.writeEntrypoint, Stage.scanContext, Stage.writeBuildDefinition,
             Stage.buildImage, Stage.replaceContainer]
    ∧ (∀ m, env.llm = .error m →
        (run env fs0).result = ["Error: " ++ m]
        ∧ (run env fs0).stages
            = [Stage.writeEntrypoint, Stage.scanContext, Stage.writeBuildDefinition])
    ∧ (∀ m, env.entryWrite = .raised m →
        (run env fs0).stages.take 2 = [Stage.writeEntrypoint, Stage.scanContext]) := by
  rcases hl : env.llm with m0 | t0
  · simp only [run, generate_dockerfile, hl]
    refine ⟨by decide, by decide, ?_, fun m _ => rfl⟩
    intro m hm
    injection hm with h
    subst h
    exact ⟨rfl, trivial⟩
  · rcases hdw : env.dfWriteErr with _ | w0
    · simp only [run, generate_dockerfile, hl, hdw]
      refine ⟨?_, ?_, ?_, fun m _ => rfl⟩
      · split <;> decide
      · split <;> decide
      · intro m hm; simp at hm
    · simp only [run, generate_dockerfile, hl, hdw]
      refine ⟨by decide, by decide, ?_, fun m _ => rfl⟩
      intro m hm; simp at hm

/-- Witness for C6 amended at a run whose generation call raises. -/
theorem pipeline_stage_order_witness :
    (run envLlmRaises fsEmpty).stages.Nodup
    ∧ (run envLlmRaises fsEmpty).result
        = ["Error: " ++ "ConnectionError: generation service unreachable"]
    ∧ (run envLlmRaises fsEmpty).stages
        = [Stage.writeEntrypoint, Stage.scanContext, Stage.writeBuildDefinition] :=
  ⟨(pipeline_stage_order envLlmRaises fsEmpty).1,
   ((pipeline_stage_order envLlmRaises fsEmpty).2.2.1 _ rfl).1,
   ((pipeline_stage_order envLlmRaises fsEmpty).2.2.1 _ rfl).2⟩

/-- C7: if the generation service call raises, the run fails with that
cause, the entrypoint artifact written by the earlier stage is still on
disk with its full content, the build-definition artifact is untouched,
and no build is attempted. -/
theorem generation_failure_frame (env : AgentEnv) (fs0 : FS) (m : String)
    (hw : env.entryWrite = .ok) (hl : env.llm = .error m) :
    (run env fs0).result = ["Error: " ++ m]
    ∧ (run env fs0).fs.entrypoint = some entrypointContent
    ∧ (run env fs0).fs.dockerfile = fs0.dockerfile
    ∧ (run env fs0).deploy = none
    ∧ Stage.buildImage ∉ (run env fs0).stages := by
  simp only [run, generate_dockerfile, hl, hw, ensure_entrypoint]
  refine ⟨?_, ?_, ?_, ?_, ?_⟩ <;> trivial

/-- Witness for C7 at a concrete raising generation call over an empty
project directory. -/
theorem generation_failure_frame_witness :
    (run envLlmRaises fsEmpty).result
        = ["Error: " ++ "ConnectionError: generation service unreachable"]
    ∧ (run envLlmRaises fsEmpty).fs.entrypoint = some entrypointContent
    ∧ (run envLlmRaises fsEmpty).fs.dockerfile = none
    ∧ (run envLlmRaises fsEmpty).deploy = none
    ∧ Stage.buildImage ∉ (run envLlmRaises fsEmpty).stages := by
  have h := generation_failure_frame envLlmRaises fsEmpty
    "ConnectionError: generation service unreachable" rfl rfl
  exact ⟨h.1, h.2.1, h.2.2.1, h.2.2.2.1, h.2.2.2.2⟩

/-- C10: `deploy_container` never raises to its caller — every deployment
failure comes back as the status string — so whenever the Dockerfile stage
succeeds, `run` returns the two-element list of the build-definition
location and that status, even when deployment failed. -/
theorem run_returns_pair (env : AgentEnv) (fs0 : FS) (t : String)
    (hl : env.llm = .ok t) (hdw : env.dfWriteErr = none) :
    (run env fs0).result = [dockerfileLoc, (deploy_container env.docker).status] := by
  simp only [run, generate_dockerfile, hl, hdw]

/-- Witness for C10 at a run whose build stream errors: the run still
returns normally with the failure described in the second element. -/
theorem run_returns_pair_witness :
    (run envDeployFails fsEmpty).result
      = [dockerfileLoc, (deploy_container envDeployFails.docker).status] :=
  run_returns_pair envDeployFails fsEmpty "FROM python:3.9-slim" rfl rfl

end DevOpsAgent
